import Mathlib

/-!
# Verification of the dynamic-chart-builder analytics contracts

A shallow embedding, in Lean 4, of the data model and operations of the
`dynamic-chart-builder` repository: the frontend service layer
(`aggregateApi.ts`, `uploadService.ts`, `closeCallApi.ts`,
`chartDataTransformer.ts`, `BaseTable.tsx`, the close-call hooks) and the
backend analytics contracts the frontend consumes (close-call matcher,
severity classification, pagination), the latter modelled from the
specification where the backend implementation is not part of the
repository sources.

JavaScript numbers are embedded as `ℚ` (the spec treats positions,
distances and thresholds as real-valued; all arithmetic the claims touch
is exact), timestamps as `ℤ` milliseconds, and JavaScript record values as
an explicit `JsValue` type so that `undefined`, `null`, `""`, `false` and
`0` stay distinguishable.
-/

/-- A JavaScript value as it can appear in a filter record sent to the
API layer: `undefined`, `null`, a string, a number, or a boolean. -/
inductive JsValue where
  | undef
  | nullv
  | str (s : String)
  | num (q : ℚ)
  | boolean (b : Bool)
deriving DecidableEq

/-- The removal test of `cleanFilters` (chartDataTransformer.ts) and of the
inline filtering in `CloseCallApiService.getCloseCalls` (closeCallApi.ts):
an entry is dropped exactly when
`value === undefined || value === null || value === ''`.  Strict equality
(`!==`) never coerces, so a non-string value is only dropped when it is
`undefined` or `null`. -/
def removedByClean : JsValue → Bool
  | .undef => true
  | .nullv => true
  | .str s => s = ""
  | .num _ => false
  | .boolean _ => false

/-- `cleanFilters` (chartDataTransformer.ts lines 224–232), also inlined in
`CloseCallApiService.getCloseCalls`: rebuild the record keeping exactly the
entries whose value survives `removedByClean`.  A JavaScript object is
embedded as its `Object.entries` association list, which preserves
insertion order. -/
def cleanFilters (l : List (String × JsValue)) : List (String × JsValue) :=
  l.filter (fun kv => !removedByClean kv.2)

/-- An error raised by the HTTP layer (`ApiService.request` wraps any fetch
or status failure into a thrown `Error`). -/
inductive ApiError where
  | network (msg : String)
  | http (status : ℕ) (body : String)
deriving DecidableEq

/-- One row of the `series` array of an aggregate KPI response. -/
structure KpiPoint where
  value : ℚ
deriving DecidableEq

/-- The result of `this.get('kpi/aggregate/', …)`: either the HTTP layer
threw, or it produced the parsed `series` rows. -/
abbrev ApiResult := Except ApiError (List KpiPoint)

/-- JavaScript `a || b` on an optional number: `undefined` (absent) and `0`
are falsy, any other number is returned unchanged. -/
def jsNumOr (o : Option ℚ) (d : ℚ) : ℚ :=
  match o with
  | none => d
  | some v => if v = 0 then d else v

/-- `data.series[0]?.value || 0`: the first series row's value, with `0`
when the series is empty (shared tail of every KPI getter). -/
def seriesValue (data : List KpiPoint) : ℚ :=
  jsNumOr (data.head?.map KpiPoint.value) 0

/-- `AggregateApiService.getTotalCount` in aggregateApi.ts: no try/catch,
so a failed request propagates to the caller; on success the first series
value (or 0 for an empty series) is returned. -/
def AggregateApi.getTotalCount (r : ApiResult) : Except ApiError ℚ :=
  r.map seriesValue

/-- `AggregateApiService.getHumanCount` in aggregateApi.ts. -/
def AggregateApi.getHumanCount (r : ApiResult) : Except ApiError ℚ :=
  r.map seriesValue

/-- `AggregateApiService.getVehicleCount` in aggregateApi.ts. -/
def AggregateApi.getVehicleCount (r : ApiResult) : Except ApiError ℚ :=
  r.map seriesValue

/-- `AggregateApiService.getVestViolationCount` in aggregateApi.ts. -/
def AggregateApi.getVestViolationCount (r : ApiResult) : Except ApiError ℚ :=
  r.map seriesValue

/-- `AggregateApiService.getTotalCount` in uploadService.ts: the body is
wrapped in `try { … } catch (error) { return 0; }`, so a failed request is
swallowed and the caller receives the number 0. -/
def UploadAggregateApi.getTotalCount (r : ApiResult) : Except ApiError ℚ :=
  match r with
  | .error _ => .ok 0
  | .ok data => .ok (seriesValue data)

/-- `AggregateApiService.getHumanCount` in uploadService.ts (same
try/catch-return-0 shape). -/
def UploadAggregateApi.getHumanCount (r : ApiResult) : Except ApiError ℚ :=
  match r with
  | .error _ => .ok 0
  | .ok data => .ok (seriesValue data)

/-- `AggregateApiService.getVehicleCount` in uploadService.ts (same
try/catch-return-0 shape). -/
def UploadAggregateApi.getVehicleCount (r : ApiResult) : Except ApiError ℚ :=
  match r with
  | .error _ => .ok 0
  | .ok data => .ok (seriesValue data)

/-- `AggregateApiService.getVestViolationCount` in uploadService.ts (same
try/catch-return-0 shape). -/
def UploadAggregateApi.getVestViolationCount (r : ApiResult) : Except ApiError ℚ :=
  match r with
  | .error _ => .ok 0
  | .ok data => .ok (seriesValue data)

/-- C10: `cleanFilters` keeps exactly the entries whose value is not
`undefined`, `null` or the empty string; it is a sublist of its input (so
surviving entries are unchanged and keep their order); boolean `false` and
numeric `0` are never removed; and it is idempotent. -/
theorem cleanFilters_removes_exactly_empties (l : List (String × JsValue)) :
    (∀ kv : String × JsValue, kv ∈ cleanFilters l ↔ kv ∈ l ∧ removedByClean kv.2 = false) ∧
    (cleanFilters l).Sublist l ∧
    removedByClean (.boolean false) = false ∧
    removedByClean (.num 0) = false ∧
    cleanFilters (cleanFilters l) = cleanFilters l := by
  refine ⟨?_, ?_, rfl, rfl, ?_⟩
  · intro kv
    simp [cleanFilters, List.mem_filter]
  · exact List.filter_sublist l
  · simp [cleanFilters, List.filter_filter]

/-- C1 counterexample: the uploadService.ts `getTotalCount` on a failed
HTTP request does not surface the error — it returns the numeric value 0
(as a successful result), contradicting the claim that every failing KPI
call surfaces its error. -/
theorem uploadGetTotalCount_swallows_error :
    UploadAggregateApi.getTotalCount (.error (.network "Failed to connect to API")) = .ok 0 ∧
    (Except.ok 0 : Except ApiError ℚ) ≠ .error (.network "Failed to connect to API") := by
  exact ⟨rfl, by simp⟩

/-- C1 (amended): the four aggregate KPI operations of aggregateApi.ts
propagate a failed HTTP request's error to their caller unchanged, while
the four homonymous operations of uploadService.ts catch every error and
return 0 instead. -/
theorem aggregateKpi_error_propagation (e : ApiError) :
    AggregateApi.getTotalCount (.error e) = .error e ∧
    AggregateApi.getHumanCount (.error e) = .error e ∧
    AggregateApi.getVehicleCount (.error e) = .error e ∧
    AggregateApi.getVestViolationCount (.error e) = .error e ∧
    UploadAggregateApi.getTotalCount (.error e) = .ok 0 ∧
    UploadAggregateApi.getHumanCount (.error e) = .ok 0 ∧
    UploadAggregateApi.getVehicleCount (.error e) = .ok 0 ∧
    UploadAggregateApi.getVestViolationCount (.error e) = .ok 0 :=
  ⟨rfl, rfl, rfl, rfl, rfl, rfl, rfl, rfl⟩

/-- The `CloseCallFilters` interface (types/closeCall.ts): every field is
optional on the client side. -/
structure CloseCallFilters where
  from_time : Option String := none
  to_time : Option String := none
  distance_threshold : Option ℚ := none
  time_window_ms : Option ℚ := none
  object_class : Option String := none
  zone : Option String := none
  include_details : Option Bool := none
  force_refresh : Option Bool := none
  time_bucket : Option String := none
  page : Option ℕ := none
  page_size : Option ℕ := none
deriving DecidableEq

/-- `DEFAULT_CLOSE_CALL_FILTERS` (chartDataTransformer.ts lines 200–205). -/
def DEFAULT_CLOSE_CALL_FILTERS : CloseCallFilters :=
  { distance_threshold := some 2
    time_window_ms := some 250
    include_details := some true
    time_bucket := some "1h" }

/-- `RESET_CLOSE_CALL_FILTERS` (chartDataTransformer.ts lines 207–212):
the filter set the reset button installs. -/
def RESET_CLOSE_CALL_FILTERS : CloseCallFilters :=
  { distance_threshold := some 0
    time_window_ms := some 0
    include_details := some true
    time_bucket := some "" }

/-- `getResetCloseCallFilters` (chartDataTransformer.ts lines 219–221)
returns a shallow copy of `RESET_CLOSE_CALL_FILTERS`; a copy of an
immutable record is the record itself in this embedding. -/
def getResetCloseCallFilters : CloseCallFilters := RESET_CLOSE_CALL_FILTERS

/-- The query-error taxonomy of the analytics engine, as far as the claims
need it. -/
inductive QueryError where
  | invalidQuery (param : String)
deriving DecidableEq

/-- Modelled from the spec: the Close-Call Matcher's parameter validation,
whose implementation is not part of the repository sources (only the
frontend that calls it is).  "Error conditions: `distance_threshold <= 0`
or `time_window_ms <= 0` ⇒ `InvalidQuery`." -/
def validateCloseCallQuery (dt tw : ℚ) : Except QueryError Unit :=
  if dt ≤ 0 then .error (.invalidQuery "distance_threshold")
  else if tw ≤ 0 then .error (.invalidQuery "time_window_ms")
  else .ok ()

/-- C2: a close-call query whose `distance_threshold` or `time_window_ms`
is non-positive is rejected as `InvalidQuery` (never evaluated), and the
reset filter set the client constructs (`distance_threshold = 0`,
`time_window_ms = 0`) denotes exactly such an invalid query. -/
theorem closeCall_nonpositive_thresholds_invalid (dt tw : ℚ)
    (h : dt ≤ 0 ∨ tw ≤ 0) :
    (∃ p : String, validateCloseCallQuery dt tw = .error (.invalidQuery p)) ∧
    RESET_CLOSE_CALL_FILTERS.distance_threshold = some 0 ∧
    RESET_CLOSE_CALL_FILTERS.time_window_ms = some 0 ∧
    validateCloseCallQuery 0 0 = .error (.invalidQuery "distance_threshold") := by
  refine ⟨?_, rfl, rfl, rfl⟩
  unfold validateCloseCallQuery
  rcases h with h | h
  · exact ⟨"distance_threshold", by rw [if_pos h]⟩
  · by_cases hdt : dt ≤ 0
    · exact ⟨"distance_threshold", by rw [if_pos hdt]⟩
    · exact ⟨"time_window_ms", by rw [if_neg hdt, if_pos h]⟩

/-- C2 witness: the reset filter values (0, 0) satisfy the hypothesis and
are rejected as an invalid query. -/
theorem closeCall_reset_filters_invalid :
    ∃ p : String, validateCloseCallQuery 0 0 = .error (.invalidQuery p) :=
  (closeCall_nonpositive_thresholds_invalid 0 0 (Or.inl (by norm_num))).1

/-- A site-local position, real-valued in the spec; exact rationals here. -/
structure Position where
  x : ℚ
  y : ℚ
deriving DecidableEq

/-- Squared Euclidean distance between two positions.  The matcher's
comparisons against `distance_threshold` and the severity breakpoints are
stated on squares, which is equivalent for the non-negative quantities
involved (`classifySeveritySq_eq` below makes the equivalence precise). -/
def sqDist (p q : Position) : ℚ :=
  (p.x - q.x) ^ 2 + (p.y - q.y) ^ 2

/-- The detection classes of the data model. -/
inductive ObjectClass where
  | human
  | vehicle
  | pallet_truck
  | agv
deriving DecidableEq

/-- A detection row (spec §3): timestamp in milliseconds, tracking id,
class, position, optional zone/speed/vest. -/
structure Detection where
  timestamp : ℤ
  tracking_id : String
  object_class : ObjectClass
  position : Position
  zone : Option String := none
  speed : Option ℚ := none
  vest : Option Bool := none
deriving DecidableEq

/-- The two thresholds of a close-call query. -/
structure CloseCallQuery where
  distance_threshold : ℚ
  time_window_ms : ℤ
deriving DecidableEq

/-- Event severity. -/
inductive Severity where
  | LOW
  | MEDIUM
  | HIGH
deriving DecidableEq

/-- The order LOW < MEDIUM < HIGH, as a numeric rank. -/
def severityRank : Severity → ℕ
  | .LOW => 0
  | .MEDIUM => 1
  | .HIGH => 2

/-- Modelled from the spec: the Close-Call Matcher's severity
classification (not part of the repository sources): with the query's
`distance_threshold` D, "classify `distance < D/2` as HIGH,
`D/2 <= distance < 0.8*D` as MEDIUM, otherwise LOW". -/
def classifySeverity (d D : ℚ) : Severity :=
  if d < D / 2 then .HIGH
  else if d < 4 / 5 * D then .MEDIUM
  else .LOW

/-- The same classification on squared quantities, as the matcher applies
it to the squared distance it computed for the inclusion test. -/
def classifySeveritySq (d2 D : ℚ) : Severity :=
  if 4 * d2 < D ^ 2 then .HIGH
  else if 25 * d2 < 16 * D ^ 2 then .MEDIUM
  else .LOW

lemma lt_half_iff_sq (d D : ℚ) (hd : 0 ≤ d) (hD : 0 ≤ D) :
    4 * d ^ 2 < D ^ 2 ↔ d < D / 2 := by
  constructor
  · intro h
    by_contra hcon
    push_neg at hcon
    nlinarith
  · intro h
    nlinarith

lemma lt_fourfifths_iff_sq (d D : ℚ) (hd : 0 ≤ d) (hD : 0 ≤ D) :
    25 * d ^ 2 < 16 * D ^ 2 ↔ d < 4 / 5 * D := by
  constructor
  · intro h
    by_contra hcon
    push_neg at hcon
    nlinarith
  · intro h
    nlinarith

/-- The squared classification agrees with the spec's classification on
true distances. -/
lemma classifySeveritySq_eq (d D : ℚ) (hd : 0 ≤ d) (hD : 0 ≤ D) :
    classifySeveritySq (d ^ 2) D = classifySeverity d D := by
  unfold classifySeveritySq classifySeverity
  rw [if_congr (lt_half_iff_sq d D hd hD) rfl rfl,
    if_congr (lt_fourfifths_iff_sq d D hd hD) rfl rfl]

/-- Modelled from the spec: the candidate-window test of the Matcher (not
part of the repository sources): "only vehicle detections V with
`|V.timestamp - H.timestamp| <= time_window_ms` are candidates". -/
def inTimeWindow (q : CloseCallQuery) (h v : Detection) : Prop :=
  |v.timestamp - h.timestamp| ≤ q.time_window_ms

instance (q : CloseCallQuery) (h v : Detection) : Decidable (inTimeWindow q h v) := by
  unfold inTimeWindow
  infer_instance

/-- Modelled from the spec: the emission condition of the Matcher (not
part of the repository sources): "Within the candidate window, compute
Euclidean distance(H.position, V.position); if
`distance <= distance_threshold`, emit a CloseCallEvent" — stated on
squares. -/
def closeCallPair (q : CloseCallQuery) (h v : Detection) : Prop :=
  inTimeWindow q h v ∧ sqDist h.position v.position ≤ q.distance_threshold ^ 2

instance (q : CloseCallQuery) (h v : Detection) : Decidable (closeCallPair q h v) := by
  unfold closeCallPair
  infer_instance

/-- A near-miss event as produced by the Matcher (`distance2` is the
squared distance between the paired positions). -/
structure CloseCallEvent where
  timestamp : ℤ
  human_tracking_id : String
  vehicle_tracking_id : String
  vehicle_class : ObjectClass
  distance2 : ℚ
  time_difference_ms : ℤ
  severity : Severity
deriving DecidableEq

/-- Modelled from the spec: the per-candidate-pair emission step of the
Close-Call Matcher (not part of the repository sources): an event is
emitted exactly when the pair is in the candidate window and within the
distance threshold, and its severity comes from the same threshold used
for inclusion. -/
def emitCloseCall (q : CloseCallQuery) (h v : Detection) : Option CloseCallEvent :=
  if closeCallPair q h v then
    some
      { timestamp := h.timestamp
        human_tracking_id := h.tracking_id
        vehicle_tracking_id := v.tracking_id
        vehicle_class := v.object_class
        distance2 := sqDist h.position v.position
        time_difference_ms := |v.timestamp - h.timestamp|
        severity := classifySeveritySq (sqDist h.position v.position) q.distance_threshold }
  else none

/-- C3: for a query with positive threshold, a candidate pair whose
Euclidean distance `d` equals `distance_threshold` exactly is emitted,
and a pair whose distance is strictly greater is never emitted (the
inclusion boundary is inclusive). -/
theorem closeCall_boundary_inclusive (q : CloseCallQuery) (h v : Detection)
    (d : ℚ) (hD : 0 < q.distance_threshold) (hd0 : 0 ≤ d)
    (hdist : d ^ 2 = sqDist h.position v.position)
    (hw : inTimeWindow q h v) :
    (d = q.distance_threshold → (emitCloseCall q h v).isSome = true) ∧
    (q.distance_threshold < d → emitCloseCall q h v = none) := by
  constructor
  · intro heq
    have hle : sqDist h.position v.position ≤ q.distance_threshold ^ 2 := by
      rw [← hdist, heq]
    rw [emitCloseCall, if_pos ⟨hw, hle⟩]
    rfl
  · intro hgt
    have hgt2 : q.distance_threshold ^ 2 < sqDist h.position v.position := by
      rw [← hdist]
      nlinarith
    rw [emitCloseCall, if_neg]
    rintro ⟨-, hle⟩
    linarith

/-- A query with `distance_threshold = 5` and `time_window_ms = 250`. -/
def sampleQuery : CloseCallQuery :=
  { distance_threshold := 5, time_window_ms := 250 }

/-- A human detection at the origin, time 0. -/
def sampleHuman : Detection :=
  { timestamp := 0, tracking_id := "H1", object_class := .human
    position := { x := 0, y := 0 }, vest := some true }

/-- A vehicle detection at (3, 4) — Euclidean distance 5 from the human —
100 ms later. -/
def sampleVehicle : Detection :=
  { timestamp := 100, tracking_id := "V1", object_class := .vehicle
    position := { x := 3, y := 4 } }

/-- C3 witness: the pair at distance exactly 5 with threshold 5 is
emitted. -/
theorem closeCall_boundary_witness :
    (emitCloseCall sampleQuery sampleHuman sampleVehicle).isSome = true :=
  (closeCall_boundary_inclusive sampleQuery sampleHuman sampleVehicle 5
    (by norm_num [sampleQuery]) (by norm_num)
    (by norm_num [sampleQuery, sampleHuman, sampleVehicle, sqDist])
    (by decide)).1 rfl

/-- The spec's severity classification is antitone in the distance for any
fixed threshold: a smaller distance never gets a strictly lower
severity. -/
lemma classifySeverity_antitone (D d1 d2 : ℚ) (h : d1 < d2) :
    severityRank (classifySeverity d2 D) ≤ severityRank (classifySeverity d1 D) := by
  unfold classifySeverity
  split_ifs <;> simp_all [severityRank] <;> linarith

/-- C4: severity is monotone in distance for a fixed query: for any two
events A and B emitted by the same query, with Euclidean distances
`dA < dB`, both severities are exactly the spec's classification
(HIGH below D/2, MEDIUM below 0.8·D, else LOW) and B's severity is not
higher than A's under LOW < MEDIUM < HIGH. -/
theorem closeCall_severity_monotone (q : CloseCallQuery)
    (hA vA hB vB : Detection) (eA eB : CloseCallEvent) (dA dB : ℚ)
    (hD : 0 < q.distance_threshold)
    (hEA : emitCloseCall q hA vA = some eA)
    (hEB : emitCloseCall q hB vB = some eB)
    (hdA : 0 ≤ dA) (hdB : 0 ≤ dB)
    (hA2 : dA ^ 2 = sqDist hA.position vA.position)
    (hB2 : dB ^ 2 = sqDist hB.position vB.position)
    (hlt : dA < dB) :
    eA.severity = classifySeverity dA q.distance_threshold ∧
    eB.severity = classifySeverity dB q.distance_threshold ∧
    severityRank eB.severity ≤ severityRank eA.severity := by
  have hsevA : eA.severity = classifySeverity dA q.distance_threshold := by
    rw [emitCloseCall] at hEA
    split at hEA
    · cases hEA
      rw [← hA2, classifySeveritySq_eq dA q.distance_threshold hdA hD.le]
    · cases hEA
  have hsevB : eB.severity = classifySeverity dB q.distance_threshold := by
    rw [emitCloseCall] at hEB
    split at hEB
    · cases hEB
      rw [← hB2, classifySeveritySq_eq dB q.distance_threshold hdB hD.le]
    · cases hEB
  refine ⟨hsevA, hsevB, ?_⟩
  rw [hsevA, hsevB]
  exact classifySeverity_antitone q.distance_threshold dA dB hlt

/-- A query with `distance_threshold = 10` for the monotonicity witness. -/
def monoQuery : CloseCallQuery :=
  { distance_threshold := 10, time_window_ms := 250 }

/-- Human of pair A, at the origin. -/
def monoHumanA : Detection :=
  { timestamp := 0, tracking_id := "H1", object_class := .human
    position := { x := 0, y := 0 } }

/-- Vehicle of pair A, at distance 3. -/
def monoVehicleA : Detection :=
  { timestamp := 0, tracking_id := "V1", object_class := .vehicle
    position := { x := 3, y := 0 } }

/-- Human of pair B, at the origin. -/
def monoHumanB : Detection :=
  { timestamp := 0, tracking_id := "H2", object_class := .human
    position := { x := 0, y := 0 } }

/-- Vehicle of pair B, at distance 9. -/
def monoVehicleB : Detection :=
  { timestamp := 0, tracking_id := "V2", object_class := .agv
    position := { x := 9, y := 0 } }

/-- The event emitted for pair A (distance 3 < 10/2 ⇒ HIGH). -/
def monoEventA : CloseCallEvent :=
  { timestamp := 0, human_tracking_id := "H1", vehicle_tracking_id := "V1"
    vehicle_class := .vehicle, distance2 := 9, time_difference_ms := 0
    severity := .HIGH }

/-- The event emitted for pair B (distance 9 ≥ 0.8·10 ⇒ LOW). -/
def monoEventB : CloseCallEvent :=
  { timestamp := 0, human_tracking_id := "H2", vehicle_tracking_id := "V2"
    vehicle_class := .agv, distance2 := 81, time_difference_ms := 0
    severity := .LOW }

lemma emit_monoA : emitCloseCall monoQuery monoHumanA monoVehicleA = some monoEventA := by
  rw [emitCloseCall, if_pos]
  · norm_num [monoQuery, monoHumanA, monoVehicleA, monoEventA, sqDist, classifySeveritySq]
  · refine ⟨?_, ?_⟩
    · show |(0 : ℤ) - 0| ≤ (250 : ℤ)
      decide
    · norm_num [monoQuery, monoHumanA, monoVehicleA, sqDist]

lemma emit_monoB : emitCloseCall monoQuery monoHumanB monoVehicleB = some monoEventB := by
  rw [emitCloseCall, if_pos]
  · norm_num [monoQuery, monoHumanB, monoVehicleB, monoEventB, sqDist, classifySeveritySq]
  · refine ⟨?_, ?_⟩
    · show |(0 : ℤ) - 0| ≤ (250 : ℤ)
      decide
    · norm_num [monoQuery, monoHumanB, monoVehicleB, sqDist]

/-- C4 witness: with threshold 10, the event at distance 3 is HIGH and the
event at distance 9 is LOW, so the farther event's severity rank is not
above the nearer one's. -/
theorem closeCall_severity_monotone_witness :
    severityRank monoEventB.severity ≤ severityRank monoEventA.severity :=
  (closeCall_severity_monotone monoQuery monoHumanA monoVehicleA monoHumanB
    monoVehicleB monoEventA monoEventB 3 9
    (by norm_num [monoQuery]) emit_monoA emit_monoB
    (by norm_num) (by norm_num)
    (by norm_num [monoHumanA, monoVehicleA, sqDist])
    (by norm_num [monoHumanB, monoVehicleB, sqDist])
    (by norm_num)).2.2

/-- Modelled from the spec: the Query Facade's pagination of result rows
(not part of the repository sources): "Pagination is page/page_size based,
1-indexed pages; out-of-range pages return an empty page, not an error".
Page `page` of size `page_size` holds the rows from 0-based index
`(page - 1) * page_size` on, at most `page_size` of them. -/
def paginate (rows : List α) (page page_size : ℕ) : List α :=
  (rows.drop ((page - 1) * page_size)).take page_size

/-- Modelled from the spec: the reported page count (not part of the
repository sources), "`pages` reflecting `ceil(total/page_size)`" — the
integer form `(total + page_size - 1) / page_size`, which
`TablePaginationActions` mirrors client-side as
`Math.ceil(count / rowsPerPage)`. -/
def pageCount (total page_size : ℕ) : ℕ :=
  (total + page_size - 1) / page_size

/-- JavaScript `Array.prototype.slice(a, b)` (for in-range arguments):
the elements with 0-based indices in `[a, b)`. -/
def jsSlice (l : List α) (a b : ℕ) : List α :=
  (l.drop a).take (b - a)

/-- The client-side pagination of `displayCalls` (CloseCallDetails.tsx):
`sortedCalls.slice(page * rowsPerPage, page * rowsPerPage + rowsPerPage)`
with a 0-indexed page state. -/
def displayCalls (sortedCalls : List α) (page rowsPerPage : ℕ) : List α :=
  jsSlice sortedCalls (page * rowsPerPage) (page * rowsPerPage + rowsPerPage)

/-- The integer page count is exactly the ceiling of the rational
`total / page_size`. -/
lemma pageCount_eq_ceil (n s : ℕ) (hs : 0 < s) :
    pageCount n s = ⌈(n : ℚ) / s⌉₊ := by
  have hsQ : (0 : ℚ) < (s : ℚ) := by exact_mod_cast hs
  have hpc : pageCount n s = n ⌈/⌉ s := (Nat.ceilDiv_eq_add_pred_div n s).symm
  rw [hpc]
  apply le_antisymm
  · rw [ceilDiv_le_iff_le_mul hs]
    have h1 : (n : ℚ) ≤ (⌈(n : ℚ) / s⌉₊ : ℚ) * s :=
      (div_le_iff₀ hsQ).mp (Nat.le_ceil _)
    have h2 : n ≤ ⌈(n : ℚ) / s⌉₊ * s := by exact_mod_cast h1
    exact h2.trans_eq (Nat.mul_comm _ _)
  · rw [Nat.ceil_le, div_le_iff₀ hsQ]
    have h1 : n ≤ s • (n ⌈/⌉ s) := le_smul_ceilDiv hs
    rw [smul_eq_mul] at h1
    have h2 : n ≤ (n ⌈/⌉ s) * s := h1.trans_eq (Nat.mul_comm _ _)
    exact_mod_cast h2

/-- C5: for positive `page_size` and 1-indexed `page`, the served page is
exactly the rows with 0-based indices `(page-1)·s` through
`min(page·s, n) - 1` (expressed as a take-then-drop of the row list); an
out-of-range page is empty (no error is possible); the reported page
count is `ceil(n / page_size)`; and the client-side `displayCalls` slice
with 0-indexed page `p - 1` agrees with the 1-indexed contract. -/
theorem paginate_spec (rows : List α) (p s : ℕ) (hp : 0 < p) (hs : 0 < s) :
    paginate rows p s = (rows.take (p * s)).drop ((p - 1) * s) ∧
    (rows.length ≤ (p - 1) * s → paginate rows p s = []) ∧
    pageCount rows.length s = ⌈(rows.length : ℚ) / s⌉₊ ∧
    displayCalls rows (p - 1) s = paginate rows p s := by
  have hps : (p - 1) * s + s = p * s := by
    obtain ⟨m, rfl⟩ := Nat.exists_eq_succ_of_ne_zero hp.ne'
    simp [Nat.succ_mul]
  refine ⟨?_, ?_, pageCount_eq_ceil rows.length s hs, ?_⟩
  · unfold paginate
    rw [List.take_drop, hps]
  · intro hlen
    unfold paginate
    rw [List.drop_eq_nil_of_le hlen, List.take_nil]
  · unfold displayCalls jsSlice paginate
    congr 1
    omega

/-- C5 witness (the spec's own example): over 25 close calls with
`page_size = 10`, page 4 is out of range and comes back empty, and the
reported page count is 3. -/
theorem paginate_witness :
    paginate (List.range 25) 4 10 = [] ∧ pageCount 25 10 = 3 :=
  ⟨(paginate_spec (List.range 25) 4 10 (by norm_num) (by norm_num)).2.1
      (by simp [List.length_range]),
   by norm_num [pageCount]⟩

/-- One `close_calls[]` entry, mirroring the `CloseCallDetail` interface
(types/closeCall.ts) field for field: `timestamp`, `human_tracking_id`,
`human_x`, `human_y`, `human_zone`, `vehicle_tracking_id`,
`vehicle_class`, `vehicle_x`, `vehicle_y`, `vehicle_zone`, `distance`,
`distance_threshold`, `time_window_ms`, `time_difference_ms`,
`severity`, with `severity : 'LOW' | 'MEDIUM' | 'HIGH'`. -/
structure CloseCallDetail where
  timestamp : String
  human_tracking_id : String
  human_x : ℚ
  human_y : ℚ
  human_zone : Option String
  vehicle_tracking_id : String
  vehicle_class : String
  vehicle_x : ℚ
  vehicle_y : ℚ
  vehicle_zone : Option String
  distance : ℚ
  distance_threshold : ℚ
  time_window_ms : ℚ
  time_difference_ms : ℚ
  severity : Severity
deriving DecidableEq

/-- The field tuple of a `close_calls[]` entry, in interface order. -/
def closeCallDetailRepr (e : CloseCallDetail) :
    String × String × ℚ × ℚ × Option String × String × String × ℚ × ℚ ×
      Option String × ℚ × ℚ × ℚ × ℚ × Severity :=
  (e.timestamp, e.human_tracking_id, e.human_x, e.human_y, e.human_zone,
    e.vehicle_tracking_id, e.vehicle_class, e.vehicle_x, e.vehicle_y,
    e.vehicle_zone, e.distance, e.distance_threshold, e.time_window_ms,
    e.time_difference_ms, e.severity)

/-- Rebuild a `close_calls[]` entry from its field tuple. -/
def closeCallDetailOfRepr
    (t : String × String × ℚ × ℚ × Option String × String × String × ℚ × ℚ ×
      Option String × ℚ × ℚ × ℚ × ℚ × Severity) : CloseCallDetail :=
  { timestamp := t.1, human_tracking_id := t.2.1, human_x := t.2.2.1
    human_y := t.2.2.2.1, human_zone := t.2.2.2.2.1
    vehicle_tracking_id := t.2.2.2.2.2.1, vehicle_class := t.2.2.2.2.2.2.1
    vehicle_x := t.2.2.2.2.2.2.2.1, vehicle_y := t.2.2.2.2.2.2.2.2.1
    vehicle_zone := t.2.2.2.2.2.2.2.2.2.1
    distance := t.2.2.2.2.2.2.2.2.2.2.1
    distance_threshold := t.2.2.2.2.2.2.2.2.2.2.2.1
    time_window_ms := t.2.2.2.2.2.2.2.2.2.2.2.2.1
    time_difference_ms := t.2.2.2.2.2.2.2.2.2.2.2.2.2.1
    severity := t.2.2.2.2.2.2.2.2.2.2.2.2.2.2 }

/-- C6: a `close_calls[]` entry carries exactly the fifteen contract
fields — the structure is in bijection with the tuple of those fields, the
round trip is the identity in both directions — and its severity can only
be LOW, MEDIUM or HIGH. -/
theorem closeCallDetail_shape :
    Function.Bijective closeCallDetailRepr ∧
    (∀ e : CloseCallDetail, closeCallDetailOfRepr (closeCallDetailRepr e) = e) ∧
    (∀ t, closeCallDetailRepr (closeCallDetailOfRepr t) = t) ∧
    (∀ s : Severity, s = .LOW ∨ s = .MEDIUM ∨ s = .HIGH) := by
  have hli : Function.LeftInverse closeCallDetailOfRepr closeCallDetailRepr :=
    fun e => rfl
  have hri : Function.RightInverse closeCallDetailOfRepr closeCallDetailRepr :=
    fun t => rfl
  refine ⟨⟨hli.injective, hri.surjective⟩, hli, hri, fun s => ?_⟩
  cases s
  · exact Or.inl rfl
  · exact Or.inr (Or.inl rfl)
  · exact Or.inr (Or.inr rfl)

/-- The `AggregationFilters` interface (types/filters.ts). -/
structure AggregationFilters where
  metric : String
  entity : String
  group_by : List String
  time_bucket : String
  object_class : List String := []
  vest : Option Bool := none
  from_time : Option String := none
  to_time : Option String := none
  min_speed : Option ℚ := none
  max_speed : Option ℚ := none
  min_x : Option ℚ := none
  max_x : Option ℚ := none
  min_y : Option ℚ := none
  max_y : Option ℚ := none
  zone : Option String := none
deriving DecidableEq

/-- `DEFAULT_FILTERS` (AggregateFilterConstants.ts lines 4–19). -/
def DEFAULT_FILTERS : AggregationFilters :=
  { metric := "count"
    entity := ""
    group_by := ["time_bucket"]
    time_bucket := "1h"
    object_class := [] }

/-- The chart-series hook's filter preparation (useChartData.ts, the
`useAggregateData` chart variant, lines 50–55): "If no group_by is
specified, use default time_bucket grouping for charts". -/
def chartAggregateFilters (f : AggregationFilters) : AggregationFilters :=
  if f.group_by = [] then { f with group_by := ["time_bucket"] } else f

/-- The point-value hook's filter preparation (useAggregateData.ts lines
24–26): "Remove group_by from filters for aggregate box". -/
def pointAggregateFilters (f : AggregationFilters) : AggregationFilters :=
  { f with group_by := [] }

/-- Modelled from the spec: the Query Canonicalizer's `time_bucket`
default (not part of the repository sources): "missing `time_bucket` ⇒
`"1h"`". -/
def defaultTimeBucket (tb : Option String) : String :=
  tb.getD "1h"

/-- C7: the resolution of defaults before a query is issued: a missing
`time_bucket` becomes `"1h"` (and the client default filter set already
carries `"1h"`); a chart (aggregate-series) filter set with an empty
`group_by` list gets `["time_bucket"]`, a non-empty one is untouched; a
point-value query always goes out with `group_by = []`. -/
theorem query_defaults_resolution (f : AggregationFilters) :
    defaultTimeBucket none = "1h" ∧
    DEFAULT_FILTERS.time_bucket = "1h" ∧
    (f.group_by = [] → (chartAggregateFilters f).group_by = ["time_bucket"]) ∧
    (f.group_by ≠ [] → chartAggregateFilters f = f) ∧
    (pointAggregateFilters f).group_by = [] := by
  refine ⟨rfl, rfl, ?_, ?_, rfl⟩
  · intro h
    rw [chartAggregateFilters, if_pos h]
  · intro h
    rw [chartAggregateFilters, if_neg h]

/-- C7 witness: the client default filter set with its `group_by` emptied
is re-defaulted to `["time_bucket"]` by the chart hook, and is sent with
`group_by = []` by the point-value hook. -/
theorem query_defaults_resolution_witness :
    (chartAggregateFilters { DEFAULT_FILTERS with group_by := [] }).group_by =
      ["time_bucket"] ∧
    (pointAggregateFilters { DEFAULT_FILTERS with group_by := [] }).group_by = [] :=
  ⟨(query_defaults_resolution { DEFAULT_FILTERS with group_by := [] }).2.2.1 rfl,
    (query_defaults_resolution { DEFAULT_FILTERS with group_by := [] }).2.2.2.2⟩

/-- The `statistics` block of a close-call response (types/closeCall.ts). -/
structure CloseCallStatistics where
  human_detections_processed : ℕ
  vehicle_detections_processed : ℕ
  close_calls_detected : ℕ
  time_window_used_ms : ℚ
deriving DecidableEq

/-- The `by_severity` block of a close-call response. -/
structure BySeverityCounts where
  HIGH : ℕ
  MEDIUM : ℕ
  LOW : ℕ
deriving DecidableEq

/-- A `CloseCallResponse` (types/closeCall.ts), with the fields the
claims touch. -/
structure CloseCallResponse where
  total_count : ℕ
  by_vehicle_class : List (String × ℕ)
  by_severity : BySeverityCounts
  time_series : List (String × ℕ)
  close_calls : List CloseCallDetail
  statistics : CloseCallStatistics
  computed_at : String
  include_details : Bool
deriving DecidableEq

/-- The `CloseCallKpiData` record derived by `useCloseCallData`. -/
structure CloseCallKpiData where
  totalCloseCalls : ℕ
  highSeverity : ℕ
  mediumSeverity : ℕ
  lowSeverity : ℕ
  humanDetections : ℕ
  vehicleDetections : ℕ
  detectionRate : ℚ
deriving DecidableEq

/-- The `kpiData` transformation of `useCloseCallData` (the close-call
data hook): in particular
`detectionRate: human_detections_processed > 0 ?
(total_count / human_detections_processed) * 100 : 0`. -/
def closeCallKpiData (r : CloseCallResponse) : CloseCallKpiData :=
  { totalCloseCalls := r.total_count
    highSeverity := r.by_severity.HIGH
    mediumSeverity := r.by_severity.MEDIUM
    lowSeverity := r.by_severity.LOW
    humanDetections := r.statistics.human_detections_processed
    vehicleDetections := r.statistics.vehicle_detections_processed
    detectionRate :=
      if 0 < r.statistics.human_detections_processed then
        ((r.total_count : ℚ) / (r.statistics.human_detections_processed : ℚ)) * 100
      else 0 }

/-- C9: for every close-call response, `detectionRate` equals
`100 * total_count / human_detections_processed` when the processed-human
count is positive, and 0 when it is zero — the ternary guard makes an
unguarded division by zero unreachable. -/
theorem detectionRate_guarded (r : CloseCallResponse) :
    (0 < r.statistics.human_detections_processed →
      (closeCallKpiData r).detectionRate =
        100 * (r.total_count : ℚ) / (r.statistics.human_detections_processed : ℚ)) ∧
    (r.statistics.human_detections_processed = 0 →
      (closeCallKpiData r).detectionRate = 0) := by
  constructor
  · intro h
    simp only [closeCallKpiData]
    rw [if_pos h]
    ring
  · intro h
    simp only [closeCallKpiData]
    rw [if_neg]
    omega

/-- A concrete close-call response: 10 close calls out of 50 processed
human detections. -/
def sampleCloseCallResponse : CloseCallResponse :=
  { total_count := 10
    by_vehicle_class := [("vehicle", 6), ("agv", 4)]
    by_severity := { HIGH := 2, MEDIUM := 3, LOW := 5 }
    time_series := []
    close_calls := []
    statistics :=
      { human_detections_processed := 50
        vehicle_detections_processed := 120
        close_calls_detected := 10
        time_window_used_ms := 250 }
    computed_at := "2025-01-01T00:00:00Z"
    include_details := true }

/-- C9 witness: 10 close calls over 50 processed human detections give a
detection rate of 20 (percent). -/
theorem detectionRate_witness :
    (closeCallKpiData sampleCloseCallResponse).detectionRate = 20 := by
  have h := (detectionRate_guarded sampleCloseCallResponse).1
    (by norm_num [sampleCloseCallResponse])
  rw [h]
  norm_num [sampleCloseCallResponse]

/-- The index decoration of `stableSort`:
`array.map((el, index) => [el, index] as [T, number])`. -/
def decorate (l : List α) : List (α × ℕ) :=
  l.enum.map (fun p => (p.2, p.1))

/-- The ordering the decorated sort realizes: the inner comparator first
(`const order = comparator(a[0], b[0]); if (order !== 0) return order;`),
the original index as tie-break (`return a[1] - b[1];`).  `liftCmp x y`
holds when the decorated comparator puts `x` before `y` or ties. -/
def liftCmp (cmp : α → α → Int) (x y : α × ℕ) : Prop :=
  cmp x.1 y.1 < 0 ∨ (cmp x.1 y.1 = 0 ∧ x.2 ≤ y.2)

instance (cmp : α → α → Int) : DecidableRel (liftCmp cmp) := fun x y => by
  unfold liftCmp
  infer_instance

/-- `stableSort` (BaseTable.tsx lines 378–388, duplicated in
CloseCallDetails.tsx): decorate each element with its original index,
sort by the comparator with the index as tie-break, and strip the
decoration.  Distinct decorated elements never tie (their indices
differ), so for a consistent comparator the sorted order is unique and
any correct implementation of `Array.prototype.sort` — here
`List.insertionSort` — produces the same list. -/
def stableSort (l : List α) (cmp : α → α → Int) : List α :=
  (List.insertionSort (liftCmp cmp) (decorate l)).map Prod.fst

/-- The ECMAScript consistency contract for a comparator: ties are
symmetric, strict orders flip sign, and both relations are transitive and
compatible.  `Array.prototype.sort` only promises a sorted result for
consistent comparators. -/
structure ConsistentCmp (cmp : α → α → Int) : Prop where
  zero_symm : ∀ a b, cmp a b = 0 → cmp b a = 0
  flip_sign : ∀ a b, 0 < cmp a b → cmp b a < 0
  lt_trans : ∀ a b c, cmp a b < 0 → cmp b c < 0 → cmp a c < 0
  lt_of_lt_of_eq : ∀ a b c, cmp a b < 0 → cmp b c = 0 → cmp a c < 0
  lt_of_eq_of_lt : ∀ a b c, cmp a b = 0 → cmp b c < 0 → cmp a c < 0
  eq_trans : ∀ a b c, cmp a b = 0 → cmp b c = 0 → cmp a c = 0

lemma liftCmp_isTotal (cmp : α → α → Int) (hc : ConsistentCmp cmp) :
    IsTotal (α × ℕ) (liftCmp cmp) := by
  constructor
  intro x y
  rcases lt_trichotomy (cmp x.1 y.1) 0 with h | h | h
  · exact Or.inl (Or.inl h)
  · rcases le_total x.2 y.2 with hle | hle
    · exact Or.inl (Or.inr ⟨h, hle⟩)
    · exact Or.inr (Or.inr ⟨hc.zero_symm _ _ h, hle⟩)
  · exact Or.inr (Or.inl (hc.flip_sign _ _ h))

lemma liftCmp_isTrans (cmp : α → α → Int) (hc : ConsistentCmp cmp) :
    IsTrans (α × ℕ) (liftCmp cmp) := by
  constructor
  rintro x y z (h1 | ⟨h1, h1i⟩) (h2 | ⟨h2, h2i⟩)
  · exact Or.inl (hc.lt_trans _ _ _ h1 h2)
  · exact Or.inl (hc.lt_of_lt_of_eq _ _ _ h1 h2)
  · exact Or.inl (hc.lt_of_eq_of_lt _ _ _ h1 h2)
  · exact Or.inr ⟨hc.eq_trans _ _ _ h1 h2, le_trans h1i h2i⟩

lemma decorate_map_fst (l : List α) : (decorate l).map Prod.fst = l := by
  unfold decorate
  rw [List.map_map]
  have h : (Prod.fst ∘ fun p : ℕ × α => (p.2, p.1)) = Prod.snd :=
    funext (fun p => rfl)
  rw [h]
  exact List.enumFrom_map_snd 0 l

lemma decorate_map_snd_nodup (l : List α) : ((decorate l).map Prod.snd).Nodup := by
  unfold decorate
  rw [List.map_map]
  have h : (Prod.snd ∘ fun p : ℕ × α => (p.2, p.1)) = Prod.fst :=
    funext (fun p => rfl)
  rw [h]
  exact List.nodup_enum_map_fst l

/-- C8 (amended): for a consistent comparator, `stableSort` returns a
permutation of the input, pairwise non-decreasing under the comparator,
and stable: in the decorated sorted list, any two elements that compare
equal appear in strictly increasing original-index order.  Determinism
for identical inputs is immediate since `stableSort` is a function. -/
theorem stableSort_sorted_stable (l : List α) (cmp : α → α → Int)
    (hc : ConsistentCmp cmp) :
    (stableSort l cmp).Perm l ∧
    (stableSort l cmp).Pairwise (fun a b => cmp a b ≤ 0) ∧
    (List.insertionSort (liftCmp cmp) (decorate l)).Pairwise
      (fun x y => cmp x.1 y.1 = 0 → x.2 < y.2) := by
  haveI := liftCmp_isTotal cmp hc
  haveI := liftCmp_isTrans cmp hc
  have hperm : (List.insertionSort (liftCmp cmp) (decorate l)).Perm (decorate l) :=
    List.perm_insertionSort _ _
  have hsorted :
      (List.insertionSort (liftCmp cmp) (decorate l)).Pairwise (liftCmp cmp) :=
    List.sorted_insertionSort _ _
  refine ⟨?_, ?_, ?_⟩
  · have h1 := hperm.map Prod.fst
    rw [decorate_map_fst] at h1
    exact h1
  · rw [stableSort, List.pairwise_map]
    refine hsorted.imp ?_
    rintro x y (h | ⟨h, -⟩)
    · exact le_of_lt h
    · exact le_of_eq h
  · have hnodup : ((List.insertionSort (liftCmp cmp) (decorate l)).map Prod.snd).Nodup := by
      rw [(hperm.map Prod.snd).nodup_iff]
      exact decorate_map_snd_nodup l
    rw [List.Nodup, List.pairwise_map] at hnodup
    refine (hsorted.and hnodup).imp ?_
    rintro x y ⟨h | ⟨-, hle⟩, hne⟩
    · intro h0
      exact absurd h0 (ne_of_lt h)
    · intro _
      exact lt_of_le_of_ne hle hne

/-- The comparator `(a, b) => a - b` on integers, the ascending numeric
comparator `getComparator` produces for a numeric column. -/
def subCmp : ℤ → ℤ → Int := fun a b => a - b

lemma subCmp_consistent : ConsistentCmp subCmp := by
  constructor <;> intro a b <;> simp only [subCmp] <;> omega

/-- C8 witness: sorting `[3, 1, 2]` with the ascending integer comparator
yields a permutation of the input that is pairwise non-decreasing. -/
theorem stableSort_sorted_stable_witness :
    (stableSort [3, 1, 2] subCmp).Perm [3, 1, 2] ∧
    (stableSort [3, 1, 2] subCmp).Pairwise (fun a b => subCmp a b ≤ 0) :=
  ⟨(stableSort_sorted_stable [3, 1, 2] subCmp subCmp_consistent).1,
    (stableSort_sorted_stable [3, 1, 2] subCmp subCmp_consistent).2.1⟩

/-- The inconsistent comparator `() => 1`, which claims every element is
greater than every other. -/
def badCmp : ℕ → ℕ → Int := fun _ _ => 1

/-- C8 counterexample: with the (inconsistent) comparator that always
returns 1, `stableSort [0, 1]` returns `[1, 0]`, which is not
non-decreasing under that comparator — so the claim does not hold for
every comparator. -/
theorem stableSort_not_sorted_for_every_cmp :
    stableSort [0, 1] badCmp = [1, 0] ∧
    ¬ (stableSort [0, 1] badCmp).Pairwise (fun a b => badCmp a b ≤ 0) := by
  constructor
  · rfl
  · intro h
    rw [show stableSort [0, 1] badCmp = [1, 0] from rfl] at h
    have h10 : badCmp 1 0 ≤ 0 := List.rel_of_pairwise_cons h (List.mem_singleton.mpr rfl)
    simp [badCmp] at h10
